import Mathlib

/-!
# Verification of the Aria voice-agent signaling and pipeline layer

Shallow embedding of `backend/core/apis/api.py` and `backend/core/pipeline.py`:
the FastAPI signaling endpoints (offer, trickle-ICE patch, health) and the
Pipecat pipeline factory `create_pipeline`.  Pure request-handling logic is
translated to Lean functions; the asynchronous control flow of the offer path
is modelled as an explicit event trace, and the handler's registry of peer
connections as an association list.
-/

/-- A JSON scalar value, enough for the request/response bodies of this API. -/
inductive JVal
  | str (s : String)
  | bln (b : Bool)
  | int (n : Int)
  | nul
deriving DecidableEq

/-- Look up the value of a key in a JSON object (association list). -/
def lookupKey (obj : List (String × JVal)) (k : String) : Option JVal :=
  (obj.find? (fun p => p.fst = k)).map Prod.snd

/-- Embeds the pydantic model `OfferRequest` of `api.py`: fields `sdp`, `type`
(required strings), `pc_id` (optional string, default `None`), `restart_pc`
(optional bool, default `None`); extra keys are ignored (`extra = "ignore"`,
and no aliases are declared, so `populate_by_name` adds nothing). -/
structure OfferRequest where
  sdp : String
  type : String
  pc_id : Option String
  restart_pc : Option Bool
deriving DecidableEq

/-- Parsing a JSON object into an `OfferRequest`, following the pydantic model:
the two required string fields must be present, `pc_id` and `restart_pc` are
read when present, every other key is ignored. -/
def OfferRequest.parse (obj : List (String × JVal)) : Except String OfferRequest :=
  match lookupKey obj "sdp", lookupKey obj "type" with
  | some (JVal.str s), some (JVal.str t) =>
      Except.ok
        { sdp := s
          type := t
          pc_id := match lookupKey obj "pc_id" with
                   | some (JVal.str p) => some p
                   | _ => none
          restart_pc := match lookupKey obj "restart_pc" with
                        | some (JVal.bln b) => some b
                        | _ => none }
  | _, _ => Except.error "422 validation error"

/-- Embeds the pydantic model `IceCandidateSchema` of `api.py`. -/
structure IceCandidateSchema where
  candidate : String
  sdp_mid : String
  sdp_mline_index : Int
deriving DecidableEq

/-- Embeds the pydantic model `PatchRequest` of `api.py`: optional `pc_id`
(default `None`) and a list of candidates. -/
structure PatchRequest where
  pc_id : Option String
  candidates : List IceCandidateSchema
deriving DecidableEq

/-- Embeds the pydantic response model `AnswerResponse` of `api.py`, with the
four identifier aliases the handler fills. -/
structure AnswerResponse where
  sdp : String
  type : String
  pc_id : String
  pcId : String
  id : String
  sessionId : String
deriving DecidableEq

/-- FastAPI serializes a `response_model` by emitting every declared field of
the pydantic model, in declaration order. -/
def AnswerResponse.toJson (r : AnswerResponse) : List (String × JVal) :=
  [("sdp", JVal.str r.sdp), ("type", JVal.str r.type), ("pc_id", JVal.str r.pc_id),
   ("pcId", JVal.str r.pcId), ("id", JVal.str r.id), ("sessionId", JVal.str r.sessionId)]

/-- The routes registered on the FastAPI app in `api.py`: `@app.get("/")`,
`@app.post("/api/offer")`, `@app.patch("/api/offer")` (method, path). -/
def app_routes : List (String × String) :=
  [("GET", "/"), ("POST", "/api/offer"), ("PATCH", "/api/offer")]

/-- Embeds `health_check` of `api.py`: the body returned by `GET /`. -/
def health_check : List (String × JVal) :=
  [("status", JVal.str "ok"), ("service", JVal.str "aria-voice-chat-agent")]

/-! ## Frames and the pipeline factory (`pipeline.py`) -/

/-- The kinds of Pipecat frames this development distinguishes. -/
inductive FrameKind
  | ttsSpeak
  | inputAudioRaw
  | audioRaw
  | other
deriving DecidableEq

/-- A frame flowing through the pipeline: its kind and an optional
text/payload. -/
structure Frame where
  kind : FrameKind
  text : Option String
deriving DecidableEq

/-- Embeds pipecat's `TTSSpeakFrame(text=...)` constructor. -/
def TTSSpeakFrame (t : String) : Frame :=
  { kind := FrameKind.ttsSpeak, text := some t }

/-- Embeds pipecat's `InputAudioRawFrame` carrying one inbound audio chunk. -/
def InputAudioRawFrame (payload : String) : Frame :=
  { kind := FrameKind.inputAudioRaw, text := some payload }

/-- A frame is an audio frame when it is an `InputAudioRawFrame` or an
`AudioRawFrame` — the `isinstance` test in
`SecureDeepgramSTTService.process_frame`. -/
def isAudioFrame (k : FrameKind) : Bool :=
  match k with
  | FrameKind.inputAudioRaw => true
  | FrameKind.audioRaw => true
  | _ => false

/-- What one `process_frame` call of the STT stage does: run recognition on
the audio (`process_audio_frame`) and/or forward the frame downstream. -/
inductive SttAction
  | processAudioFrame
  | pushDownstream
deriving DecidableEq

/-- Embeds the configuration state of `SecureDeepgramSTTService` as
constructed in `create_pipeline`. -/
structure SecureDeepgramSTTService where
  audio_passthrough : Bool
  model : String
  language : String
deriving DecidableEq

/-- Modelled from the spec: the base `DeepgramSTTService.process_frame`
(pipecat library code, not in this repository) consumes audio frames for
recognition, forwarding the audio frame downstream only when audio
passthrough is enabled, and forwards every non-audio frame downstream. -/
def superProcessFrame (passthrough : Bool) (f : Frame) : List SttAction :=
  if isAudioFrame f.kind then
    SttAction.processAudioFrame :: (if passthrough then [SttAction.pushDownstream] else [])
  else
    [SttAction.pushDownstream]

/-- Embeds `SecureDeepgramSTTService.process_frame` of `pipeline.py`: an
audio frame with passthrough disabled is recognized (`process_audio_frame`)
and the method returns without pushing it; every other case defers to the
base class. -/
def SecureDeepgramSTTService.process_frame (s : SecureDeepgramSTTService) (f : Frame) :
    List SttAction :=
  if isAudioFrame f.kind && !s.audio_passthrough then
    [SttAction.processAudioFrame]
  else
    superProcessFrame s.audio_passthrough f

/-- The stages wired by `create_pipeline`, named after what they are in the
source: `transport.input()`, the STT service, `context_aggregator.user()`,
the LLM service, `context_aggregator.assistant()`, the TTS service,
`transport.output()`. -/
inductive StageKind
  | transportInput
  | stt
  | userAggregator
  | llm
  | assistantAggregator
  | tts
  | transportOutput
deriving DecidableEq

/-- Embeds `PipelineParams` as passed to `PipelineTask` in `create_pipeline`. -/
structure PipelineParams where
  allow_interruptions : Bool
  enable_metrics : Bool
  enable_usage_metrics : Bool
deriving DecidableEq

/-- The greeting constant `GREETING` of `pipeline.py`. -/
def GREETING : String :=
  "Hi there! I'm Aria (Restored), your AI assistant. How can I help you today?"

/-- The value `create_pipeline` builds for one call session: the ordered
stage list handed to `Pipeline([...])`, the STT service configuration, the
task parameters, and the frames the registered `on_client_connected` handler
queues (`task.queue_frames([TTSSpeakFrame(text=GREETING)])`). -/
structure CreatedPipeline where
  stages : List StageKind
  stt : SecureDeepgramSTTService
  params : PipelineParams
  onClientConnectedFrames : List Frame
deriving DecidableEq

/-- The outside world `create_pipeline` depends on: whether each provider
service can be initialized (Deepgram STT, Groq LLM, Deepgram TTS), plus the
data the request handler supplies for the answer. -/
structure ProviderEnv where
  stt_ok : Bool
  llm_ok : Bool
  tts_ok : Bool
  fresh_pc_id : String
  answer_sdp : String
deriving DecidableEq

/-- Embeds `create_pipeline` of `pipeline.py`: initialize the transport, the
Deepgram STT service (with `audio_passthrough=False`, `model` and `language`
from settings), the Groq LLM, the Deepgram TTS, wire the seven stages in the
order of the `Pipeline([...])` list, build the `PipelineTask`, and register
the greeting handler.  A provider whose initialization fails raises, which
the embedding returns as `Except.error`. -/
def create_pipeline (env : ProviderEnv) : Except String CreatedPipeline :=
  if !env.stt_ok then Except.error "PipelineBuildError: DeepgramSTTService"
  else if !env.llm_ok then Except.error "PipelineBuildError: GroqLLMService"
  else if !env.tts_ok then Except.error "PipelineBuildError: DeepgramTTSService"
  else Except.ok
    { stages :=
        [StageKind.transportInput, StageKind.stt, StageKind.userAggregator,
         StageKind.llm, StageKind.assistantAggregator, StageKind.tts,
         StageKind.transportOutput]
      stt := { audio_passthrough := false, model := "nova-2", language := "en-US" }
      params :=
        { allow_interruptions := true, enable_metrics := true, enable_usage_metrics := true }
      onClientConnectedFrames := [TTSSpeakFrame GREETING] }

/-! ## The offer path (`webrtc_offer` in `api.py`) as an event trace -/

/-- The observable events of one `POST /api/offer` request, in the order they
happen: `create_pipeline` is entered and returns, the background runner task
is created, and the HTTP response carrying the SDP answer is produced. -/
inductive OfferEvent
  | createPipelineCalled
  | createPipelineReturned
  | backgroundTaskCreated
  | answerReturned
deriving DecidableEq

/-- What the `on_connection` callback leaves behind: its event trace and
either the built pipeline or the re-raised construction error. -/
structure ConnResult where
  trace : List OfferEvent
  pipeline : Except String CreatedPipeline

/-- Embeds the `on_connection` callback defined inside `webrtc_offer`:
`await create_pipeline(connection)` first; on success `asyncio.create_task`
starts the runner in the background; on failure the exception is logged and
re-raised, and no background task is created. -/
def on_connection (env : ProviderEnv) : ConnResult :=
  match create_pipeline env with
  | Except.ok p =>
      { trace := [OfferEvent.createPipelineCalled, OfferEvent.createPipelineReturned,
                  OfferEvent.backgroundTaskCreated]
        pipeline := Except.ok p }
  | Except.error e =>
      { trace := [OfferEvent.createPipelineCalled]
        pipeline := Except.error e }

/-- The handler's SDP answer: `answer["sdp"]`, `answer["type"]`,
`answer["pc_id"]`. -/
structure Answer where
  sdp : String
  type : String
  pc_id : String
deriving DecidableEq

/-- Result of `handle_web_request`: the callback's trace, the registry of
live peer-connection ids afterwards, and the answer or the propagated
error. -/
structure HandlerOfferResult where
  trace : List OfferEvent
  registry : List String
  result : Except String Answer

/-- Modelled from the spec: `SmallWebRTCRequestHandler.handle_web_request`
is pipecat library code not in this repository.  Per the Signaling Handler
contract it synchronously invokes the session-ready callback to completion
before constructing the answer, reuses the request's `pc_id` or assigns a
fresh one, and a construction failure aborts the whole request leaving no
session registered. -/
def handle_web_request (registry : List String) (req : OfferRequest)
    (cb : Unit → ConnResult) (env : ProviderEnv) : HandlerOfferResult :=
  let pcId := req.pc_id.getD env.fresh_pc_id
  let r := cb ()
  match r.pipeline with
  | Except.error e => { trace := r.trace, registry := registry, result := Except.error e }
  | Except.ok _ =>
      { trace := r.trace
        registry := pcId :: registry
        result := Except.ok { sdp := env.answer_sdp, type := "answer", pc_id := pcId } }

/-- The complete outcome of one `POST /api/offer` request. -/
structure OfferOutcome where
  trace : List OfferEvent
  registry : List String
  response : Except String AnswerResponse

/-- Embeds the route handler `webrtc_offer` of `api.py`: parse the body into
an `OfferRequest`, call `await _handler.handle_web_request(req, on_connection)`,
and on success build the `AnswerResponse` filling all four identifier fields
with `answer["pc_id"]`.  An exception from the handler propagates (the route
has no try/except around it) and fails the request. -/
def webrtc_offer (registry : List String) (env : ProviderEnv) (body : OfferRequest) :
    OfferOutcome :=
  let h := handle_web_request registry body (fun _ => on_connection env) env
  match h.result with
  | Except.error e =>
      { trace := h.trace, registry := h.registry, response := Except.error e }
  | Except.ok answer =>
      { trace := h.trace ++ [OfferEvent.answerReturned]
        registry := h.registry
        response := Except.ok
          { sdp := answer.sdp
            type := answer.type
            pc_id := answer.pc_id
            pcId := answer.pc_id
            id := answer.pc_id
            sessionId := answer.pc_id } }

/-! ## The trickle-ICE endpoint (`webrtc_ice_candidates` in `api.py`) -/

/-- The handler's map of live peer connections: `pc_id` to the candidates
delivered to that connection so far. -/
abbrev HandlerState : Type := List (String × List IceCandidateSchema)

/-- Modelled from the spec: `SmallWebRTCRequestHandler.handle_patch_request`
is pipecat library code not in this repository.  Per the Signaling Handler
contract, `AddCandidates` delivers the candidates to the connection the id
resolves to; an id that does not resolve is non-fatal to the caller — logged
and treated as a no-op, not surfaced as a failure. -/
def handle_patch_request (st : HandlerState) (pcid : String)
    (cs : List IceCandidateSchema) : HandlerState :=
  st.map (fun p => if p.fst = pcid then (p.fst, p.snd ++ cs) else p)

/-- The observable calls `webrtc_ice_candidates` makes into the handler. -/
inductive PatchEffect
  | handlePatchRequestCalled
deriving DecidableEq

/-- Outcome of one `PATCH /api/offer` request: the handler state afterwards,
the `status` field of the JSON response, and the handler calls made. -/
structure PatchOutcome where
  state : HandlerState
  status : String
  effects : List PatchEffect

/-- Embeds the route handler `webrtc_ice_candidates` of `api.py`: a missing
or empty `pc_id` (`if not body.pc_id`) is logged and answered with
`status = "ignored"` without touching the handler; otherwise the candidates
are forwarded via `handle_patch_request` and the response is
`status = "ok"`. -/
def webrtc_ice_candidates (st : HandlerState) (body : PatchRequest) : PatchOutcome :=
  match body.pc_id with
  | none => { state := st, status := "ignored", effects := [] }
  | some p =>
      if p = "" then { state := st, status := "ignored", effects := [] }
      else
        { state := handle_patch_request st p body.candidates
          status := "ok"
          effects := [PatchEffect.handlePatchRequestCalled] }

/-! ## Transport events and the greeting (`on_client_connected`) -/

/-- The events the media transport delivers to one session. -/
inductive TransportEvent
  | clientConnected
  | audioFrameReceived (payload : String)
deriving DecidableEq

/-- The frames one transport event injects into the pipeline: the
`on_client_connected` handler registered by `create_pipeline` queues its
greeting frames, and an inbound audio event enters as an
`InputAudioRawFrame` through `transport.input()`. -/
def processEvent (p : CreatedPipeline) (e : TransportEvent) : List Frame :=
  match e with
  | TransportEvent.clientConnected => p.onClientConnectedFrames
  | TransportEvent.audioFrameReceived s => [InputAudioRawFrame s]

/-- The stream of frames entering the pipeline for a whole sequence of
transport events, in order. -/
def runEvents (p : CreatedPipeline) : List TransportEvent → List Frame
  | [] => []
  | e :: rest => processEvent p e ++ runEvents p rest

/-- Modelled from the spec: the media transport raises audio-frame events
only on an established connection, so the connected event precedes every
audio event in a session's event sequence. -/
def connectedBeforeAudio : List TransportEvent → Bool
  | [] => true
  | TransportEvent.clientConnected :: _ => true
  | TransportEvent.audioFrameReceived _ :: _ => false

/-! ## Concrete fixtures used by witnesses and counterexamples -/

/-- An environment in which every provider initializes. -/
def envOK : ProviderEnv :=
  { stt_ok := true, llm_ok := true, tts_ok := true,
    fresh_pc_id := "pc-1", answer_sdp := "v=0 answer" }

/-- An environment in which the Deepgram STT provider fails to initialize. -/
def envSttFail : ProviderEnv :=
  { stt_ok := false, llm_ok := true, tts_ok := true,
    fresh_pc_id := "pc-1", answer_sdp := "v=0 answer" }

/-- A well-formed offer body with no `pc_id`. -/
def body0 : OfferRequest :=
  { sdp := "v=0 offer", type := "offer", pc_id := none, restart_pc := none }

/-- The pipeline value `create_pipeline` returns in `envOK`. -/
def pipeline0 : CreatedPipeline :=
  { stages :=
      [StageKind.transportInput, StageKind.stt, StageKind.userAggregator,
       StageKind.llm, StageKind.assistantAggregator, StageKind.tts,
       StageKind.transportOutput]
    stt := { audio_passthrough := false, model := "nova-2", language := "en-US" }
    params :=
      { allow_interruptions := true, enable_metrics := true, enable_usage_metrics := true }
    onClientConnectedFrames := [TTSSpeakFrame GREETING] }

/-- The answer `webrtc_offer` returns for `body0` in `envOK`. -/
def answer0 : AnswerResponse :=
  { sdp := "v=0 answer", type := "answer", pc_id := "pc-1",
    pcId := "pc-1", id := "pc-1", sessionId := "pc-1" }

/-! ## Helper lemmas -/

/-- The success value of `create_pipeline` does not depend on the
environment: it is always `pipeline0`. -/
lemma create_pipeline_ok_eq (env : ProviderEnv) (p : CreatedPipeline)
    (h : create_pipeline env = Except.ok p) : p = pipeline0 := by
  unfold create_pipeline at h
  split at h
  · exact Except.noConfusion h
  · split at h
    · exact Except.noConfusion h
    · split at h
      · exact Except.noConfusion h
      · injection h with h
        exact h.symm

/-- The whole outcome of a successful offer request. -/
lemma webrtc_offer_eq_ok (registry : List String) (env : ProviderEnv)
    (body : OfferRequest) (p : CreatedPipeline)
    (h : create_pipeline env = Except.ok p) :
    webrtc_offer registry env body =
      { trace := [OfferEvent.createPipelineCalled, OfferEvent.createPipelineReturned,
                  OfferEvent.backgroundTaskCreated, OfferEvent.answerReturned]
        registry := (body.pc_id.getD env.fresh_pc_id) :: registry
        response := Except.ok
          { sdp := env.answer_sdp
            type := "answer"
            pc_id := body.pc_id.getD env.fresh_pc_id
            pcId := body.pc_id.getD env.fresh_pc_id
            id := body.pc_id.getD env.fresh_pc_id
            sessionId := body.pc_id.getD env.fresh_pc_id } } := by
  simp [webrtc_offer, handle_web_request, on_connection, h]

/-- The whole outcome of an offer request whose pipeline construction
fails. -/
lemma webrtc_offer_eq_error (registry : List String) (env : ProviderEnv)
    (body : OfferRequest) (e : String)
    (h : create_pipeline env = Except.error e) :
    webrtc_offer registry env body =
      { trace := [OfferEvent.createPipelineCalled]
        registry := registry
        response := Except.error e } := by
  simp [webrtc_offer, handle_web_request, on_connection, h]

/-- A successful offer response implies pipeline construction succeeded. -/
lemma webrtc_offer_response_ok_elim (registry : List String) (env : ProviderEnv)
    (body : OfferRequest) (r : AnswerResponse)
    (h : (webrtc_offer registry env body).response = Except.ok r) :
    create_pipeline env = Except.ok pipeline0 := by
  cases hc : create_pipeline env with
  | ok p =>
      have hp := create_pipeline_ok_eq env p hc
      subst hp
      rfl
  | error e =>
      rw [webrtc_offer_eq_error registry env body e hc] at h
      exact Except.noConfusion h

/-- Delivering candidates to an id no registered connection carries leaves
the handler state unchanged. -/
lemma handle_patch_request_unknown (st : HandlerState) (p : String)
    (cs : List IceCandidateSchema) (h : ∀ q ∈ st, q.fst ≠ p) :
    handle_patch_request st p cs = st := by
  unfold handle_patch_request
  induction st with
  | nil => rfl
  | cons a tl ih =>
      simp only [List.map_cons]
      rw [if_neg (h a (List.mem_cons_self a tl))]
      rw [ih (fun q hq => h q (List.mem_cons_of_mem a hq))]

/-! ## Claim theorems -/

/-- C1: for every valid offer handled by `POST /api/offer` (one that ends in
a successful answer), `create_pipeline` is awaited to completion inline
before the SDP answer is returned: the trace ends with the answer event, and
that event is preceded by `createPipelineReturned` while no earlier answer
event exists. -/
theorem c1_answer_only_after_create_pipeline (registry : List String)
    (env : ProviderEnv) (body : OfferRequest) (r : AnswerResponse)
    (h : (webrtc_offer registry env body).response = Except.ok r) :
    ∃ pre, (webrtc_offer registry env body).trace = pre ++ [OfferEvent.answerReturned] ∧
      OfferEvent.createPipelineReturned ∈ pre ∧
      OfferEvent.answerReturned ∉ pre := by
  have hc := webrtc_offer_response_ok_elim registry env body r h
  rw [webrtc_offer_eq_ok registry env body pipeline0 hc]
  exact ⟨[OfferEvent.createPipelineCalled, OfferEvent.createPipelineReturned,
          OfferEvent.backgroundTaskCreated], rfl, by decide, by decide⟩

/-- Witness for C1 at a concrete successful offer. -/
theorem c1_witness :
    ∃ pre, (webrtc_offer [] envOK body0).trace = pre ++ [OfferEvent.answerReturned] ∧
      OfferEvent.createPipelineReturned ∈ pre ∧
      OfferEvent.answerReturned ∉ pre :=
  c1_answer_only_after_create_pipeline [] envOK body0 answer0 rfl

/-- C3: every pipeline `create_pipeline` builds consists of exactly the seven
stages transport-input, STT, user aggregation, LLM, assistant aggregation,
TTS, transport-output, in that fixed order (the embedding has no mutation of
the stage list after construction). -/
theorem c3_pipeline_stage_order (env : ProviderEnv) (p : CreatedPipeline)
    (h : create_pipeline env = Except.ok p) :
    p.stages =
      [StageKind.transportInput, StageKind.stt, StageKind.userAggregator,
       StageKind.llm, StageKind.assistantAggregator, StageKind.tts,
       StageKind.transportOutput] := by
  rw [create_pipeline_ok_eq env p h]
  rfl

/-- Witness for C3 on the all-providers-available environment. -/
theorem c3_witness :
    pipeline0.stages =
      [StageKind.transportInput, StageKind.stt, StageKind.userAggregator,
       StageKind.llm, StageKind.assistantAggregator, StageKind.tts,
       StageKind.transportOutput] :=
  c3_pipeline_stage_order envOK pipeline0 rfl

/-- C4: if pipeline construction fails, the error propagates out of the offer
path and the request fails; the registry is untouched (no half-wired session
registered) and no background pipeline task is created. -/
theorem c4_build_failure_propagates (registry : List String) (env : ProviderEnv)
    (body : OfferRequest) (e : String)
    (h : create_pipeline env = Except.error e) :
    (webrtc_offer registry env body).response = Except.error e ∧
    (webrtc_offer registry env body).registry = registry ∧
    OfferEvent.backgroundTaskCreated ∉ (webrtc_offer registry env body).trace := by
  rw [webrtc_offer_eq_error registry env body e h]
  refine ⟨rfl, rfl, ?_⟩
  show OfferEvent.backgroundTaskCreated ∉ [OfferEvent.createPipelineCalled]
  decide

/-- Witness for C4: the Deepgram STT provider fails to initialize. -/
theorem c4_witness :
    (webrtc_offer [] envSttFail body0).response =
      Except.error "PipelineBuildError: DeepgramSTTService" ∧
    (webrtc_offer [] envSttFail body0).registry = [] ∧
    OfferEvent.backgroundTaskCreated ∉ (webrtc_offer [] envSttFail body0).trace :=
  c4_build_failure_propagates [] envSttFail body0
    "PipelineBuildError: DeepgramSTTService" rfl

/-- C5: in every pipeline built by `create_pipeline` (where
`audio_passthrough=False` is fixed), the STT stage consumes each inbound raw
audio frame for recognition only and never forwards it downstream. -/
theorem c5_no_audio_passthrough (env : ProviderEnv) (p : CreatedPipeline)
    (f : Frame) (hp : create_pipeline env = Except.ok p)
    (hf : isAudioFrame f.kind = true) :
    SecureDeepgramSTTService.process_frame p.stt f = [SttAction.processAudioFrame] ∧
    SttAction.pushDownstream ∉ SecureDeepgramSTTService.process_frame p.stt f := by
  have hstt : p.stt.audio_passthrough = false := by
    rw [create_pipeline_ok_eq env p hp]
    rfl
  have heq : SecureDeepgramSTTService.process_frame p.stt f =
      [SttAction.processAudioFrame] := by
    unfold SecureDeepgramSTTService.process_frame
    rw [hf, hstt]
    rfl
  exact ⟨heq, by rw [heq]; decide⟩

/-- Witness for C5 on a concrete inbound audio frame. -/
theorem c5_witness :
    SecureDeepgramSTTService.process_frame pipeline0.stt (InputAudioRawFrame "chunk") =
      [SttAction.processAudioFrame] ∧
    SttAction.pushDownstream ∉
      SecureDeepgramSTTService.process_frame pipeline0.stt (InputAudioRawFrame "chunk") :=
  c5_no_audio_passthrough envOK pipeline0 (InputAudioRawFrame "chunk") rfl rfl

/-- C10: in every successful offer response, the identifier fields `pc_id`,
`pcId`, `id` and `sessionId` all carry the peer-connection id returned by the
request handler, so all aliases are equal. -/
theorem c10_id_aliases_equal (registry : List String) (env : ProviderEnv)
    (body : OfferRequest) (r : AnswerResponse)
    (h : (webrtc_offer registry env body).response = Except.ok r) :
    r.pcId = r.pc_id ∧ r.id = r.pc_id ∧ r.sessionId = r.pc_id := by
  have hc := webrtc_offer_response_ok_elim registry env body r h
  rw [webrtc_offer_eq_ok registry env body pipeline0 hc] at h
  injection h with h
  rw [← h]
  exact ⟨rfl, rfl, rfl⟩

/-- Witness for C10 at a concrete successful offer. -/
theorem c10_witness :
    answer0.pcId = answer0.pc_id ∧ answer0.id = answer0.pc_id ∧
    answer0.sessionId = answer0.pc_id :=
  c10_id_aliases_equal [] envOK body0 answer0 rfl

/-- A handler state with one registered peer connection. -/
def patchStateKnown : HandlerState := [("known-pc", [])]

/-- A PATCH body whose `pc_id` is present but resolves to no connection. -/
def patchBodyUnknown : PatchRequest := { pc_id := some "ghost", candidates := [] }

/-- C2 as stated is false: a PATCH request whose `pc_id` is present but
unknown is answered with `status = "ok"`, not `status = "ignored"` — the
`"ignored"` branch is taken only when `pc_id` is missing or empty. -/
theorem c2_counterexample :
    (webrtc_ice_candidates patchStateKnown patchBodyUnknown).status ≠ "ignored" ∧
    (webrtc_ice_candidates patchStateKnown patchBodyUnknown).status = "ok" := by
  constructor
  · intro h
    exact absurd h (by decide)
  · rfl

/-- C2 amended: a PATCH request whose `pc_id` is present and nonempty but
does not resolve to a known session is answered with `status = "ok"`, no
error status, and has no side effect — the unknown id is a no-op in the
underlying handler, so the connection map is unchanged. -/
theorem c2_amended_unknown_id_ok_noop (st : HandlerState) (body : PatchRequest)
    (p : String) (hp : body.pc_id = some p) (hne : p ≠ "")
    (hunk : ∀ q ∈ st, q.fst ≠ p) :
    (webrtc_ice_candidates st body).status = "ok" ∧
    (webrtc_ice_candidates st body).state = st := by
  unfold webrtc_ice_candidates
  rw [hp]
  dsimp only
  rw [if_neg hne]
  exact ⟨rfl, handle_patch_request_unknown st p body.candidates hunk⟩

/-- Witness for the amended C2 at a concrete unknown id. -/
theorem c2_amended_witness :
    (webrtc_ice_candidates patchStateKnown patchBodyUnknown).status = "ok" ∧
    (webrtc_ice_candidates patchStateKnown patchBodyUnknown).state = patchStateKnown :=
  c2_amended_unknown_id_ok_noop patchStateKnown patchBodyUnknown "ghost" rfl
    (by decide) (by decide)

/-- C9: a PATCH request whose `pc_id` is absent or empty is answered with
`status = "ignored"`, the underlying candidate-delivery handler is never
invoked, and the handler state is untouched. -/
theorem c9_missing_pc_id_ignored (st : HandlerState) (body : PatchRequest)
    (h : body.pc_id = none ∨ body.pc_id = some "") :
    (webrtc_ice_candidates st body).status = "ignored" ∧
    (webrtc_ice_candidates st body).effects = [] ∧
    (webrtc_ice_candidates st body).state = st := by
  rcases h with h | h <;> unfold webrtc_ice_candidates <;> rw [h] <;>
    exact ⟨rfl, rfl, rfl⟩

/-- Witness for C9 with an absent `pc_id`. -/
theorem c9_witness :
    (webrtc_ice_candidates patchStateKnown { pc_id := none, candidates := [] }).status
      = "ignored" ∧
    (webrtc_ice_candidates patchStateKnown { pc_id := none, candidates := [] }).effects
      = [] ∧
    (webrtc_ice_candidates patchStateKnown { pc_id := none, candidates := [] }).state
      = patchStateKnown :=
  c9_missing_pc_id_ignored patchStateKnown { pc_id := none, candidates := [] }
    (Or.inl rfl)

/-- An offer body that tries to target a session through a `session_id`
key. -/
def offerJsonWithSessionId : List (String × JVal) :=
  [("sdp", JVal.str "v=0 offer"), ("type", JVal.str "offer"),
   ("session_id", JVal.str "S1")]

/-- C6 as stated is false at concrete inputs: a body carrying `session_id`
parses with `pc_id = none` (the key is an ignored extra, so it targets no
session), and the success response serializes six fields, not
`sdp, type, session_id`. -/
theorem c6_counterexample :
    OfferRequest.parse offerJsonWithSessionId =
      Except.ok { sdp := "v=0 offer", type := "offer", pc_id := none,
                  restart_pc := none } ∧
    (webrtc_offer [] envOK body0).response = Except.ok answer0 ∧
    answer0.toJson.map Prod.fst ≠ ["sdp", "type", "session_id"] := by
  refine ⟨rfl, rfl, ?_⟩
  decide

/-- C6 amended: the request body field that targets an existing session is
`pc_id` (with `restart_pc` for renegotiation); a body using `session_id`
instead is parsed with `pc_id = none`; and every success response carries
exactly the six fields `sdp, type, pc_id, pcId, id, sessionId`. -/
theorem c6_amended_request_response_shape (registry : List String)
    (env : ProviderEnv) (body : OfferRequest) (r : AnswerResponse)
    (s t p : String)
    (h : (webrtc_offer registry env body).response = Except.ok r) :
    OfferRequest.parse
        [("sdp", JVal.str s), ("type", JVal.str t), ("pc_id", JVal.str p)] =
      Except.ok { sdp := s, type := t, pc_id := some p, restart_pc := none } ∧
    r.toJson.map Prod.fst = ["sdp", "type", "pc_id", "pcId", "id", "sessionId"] := by
  exact ⟨rfl, rfl⟩

/-- Witness for the amended C6 at a concrete successful offer. -/
theorem c6_amended_witness :
    OfferRequest.parse
        [("sdp", JVal.str "v=0 offer"), ("type", JVal.str "offer"),
         ("pc_id", JVal.str "pc-9")] =
      Except.ok { sdp := "v=0 offer", type := "offer", pc_id := some "pc-9",
                  restart_pc := none } ∧
    answer0.toJson.map Prod.fst = ["sdp", "type", "pc_id", "pcId", "id", "sessionId"] :=
  c6_amended_request_response_shape [] envOK body0 answer0 "v=0 offer" "offer"
    "pc-9" rfl

/-- C7 as stated is false: no `GET /health` route is registered, and the
health body is not exactly `status = "ok"` — it carries a `service` field
too. -/
theorem c7_counterexample :
    ("GET", "/health") ∉ app_routes ∧
    health_check ≠ [("status", JVal.str "ok")] := by
  decide

/-- C7 amended: the liveness probe is `GET /` (no request body), and it
returns `status = "ok"` together with `service = "aria-voice-chat-agent"`. -/
theorem c7_amended_health_at_root :
    ("GET", "/") ∈ app_routes ∧
    health_check =
      [("status", JVal.str "ok"), ("service", JVal.str "aria-voice-chat-agent")] := by
  decide

/-- C8: for every session, the handler `create_pipeline` registers for the
client-connected moment queues exactly the greeting frame with the fixed
`GREETING` text, and — since the transport delivers the connected event
before any audio event — that greeting frame enters the pipeline strictly
before any user-audio-derived frame. -/
theorem c8_greeting_before_user_audio (env : ProviderEnv) (p : CreatedPipeline)
    (es : List TransportEvent)
    (hp : create_pipeline env = Except.ok p)
    (hw : connectedBeforeAudio es = true) :
    p.onClientConnectedFrames = [TTSSpeakFrame GREETING] ∧
    ∀ (i : Nat) (f : Frame), (runEvents p es)[i]? = some f →
      f.kind = FrameKind.inputAudioRaw →
      ∃ j, j < i ∧ (runEvents p es)[j]? = some (TTSSpeakFrame GREETING) := by
  have hpe := create_pipeline_ok_eq env p hp
  subst hpe
  refine ⟨rfl, ?_⟩
  cases es with
  | nil =>
      intro i f hf _
      simp [runEvents] at hf
  | cons e rest =>
      cases e with
      | audioFrameReceived s =>
          exact absurd hw (by simp [connectedBeforeAudio])
      | clientConnected =>
          intro i f hf hk
          have hrun : runEvents pipeline0 (TransportEvent.clientConnected :: rest) =
              TTSSpeakFrame GREETING :: runEvents pipeline0 rest := rfl
          rw [hrun] at hf
          cases i with
          | zero =>
              rw [List.getElem?_cons_zero] at hf
              injection hf with hf
              rw [← hf] at hk
              exact absurd hk (by decide)
          | succ i' =>
              refine ⟨0, Nat.succ_pos i', ?_⟩
              rw [hrun]
              exact List.getElem?_cons_zero

/-- Witness for C8 on a concrete event sequence: connect, then one audio
chunk. -/
theorem c8_witness :
    pipeline0.onClientConnectedFrames = [TTSSpeakFrame GREETING] ∧
    ∀ (i : Nat) (f : Frame),
      (runEvents pipeline0
        [TransportEvent.clientConnected, TransportEvent.audioFrameReceived "chunk"])[i]?
          = some f →
      f.kind = FrameKind.inputAudioRaw →
      ∃ j, j < i ∧
        (runEvents pipeline0
          [TransportEvent.clientConnected, TransportEvent.audioFrameReceived "chunk"])[j]?
            = some (TTSSpeakFrame GREETING) :=
  c8_greeting_before_user_audio envOK pipeline0
    [TransportEvent.clientConnected, TransportEvent.audioFrameReceived "chunk"]
    rfl rfl
